import Mathlib

/-!
Shallow embedding of the `agent-core` orchestration runtime, covering the
step state machine, the replan manager, the in-memory memory store with
write locks and contract validation, the memory dedup tools, the tool-call
policy callback, and the sandboxed extraction validator.  Each definition
mirrors one Python function of the repository; theorems at the end settle
the specification claims.
-/

namespace AgentCore

/-- Model of a Python/JSON value as stored and inspected by the memory layer.
Floats carry their Python `repr` string, since the code only ever does
`isinstance` checks and string serialization on them. -/
inductive PyValue where
  | none
  | bool (b : Bool)
  | int (n : Int)
  | float (r : String)
  | str (s : String)
  | list (xs : List PyValue)
  | dict (kvs : List (String × PyValue))

/-- Python `dict[str, Any]` as an insertion-ordered association list. -/
abbrev PyDict := List (String × PyValue)

mutual

/-- Structural equality on `PyValue`, mirroring Python `==` on parsed JSON data
(dataclass and container equality are field/element-wise). -/
def PyValue.beq : PyValue → PyValue → Bool
  | .none, .none => true
  | .bool a, .bool b => a == b
  | .int a, .int b => a == b
  | .float a, .float b => a == b
  | .str a, .str b => a == b
  | .list xs, .list ys => PyValue.beqList xs ys
  | .dict xs, .dict ys => PyValue.beqKvs xs ys
  | _, _ => false

/-- Element-wise equality of `PyValue` lists. -/
def PyValue.beqList : List PyValue → List PyValue → Bool
  | [], [] => true
  | x :: xs, y :: ys => PyValue.beq x y && PyValue.beqList xs ys
  | _, _ => false

/-- Pair-wise equality of insertion-ordered dict entries. -/
def PyValue.beqKvs : List (String × PyValue) → List (String × PyValue) → Bool
  | [], [] => true
  | (k1, v1) :: xs, (k2, v2) :: ys => k1 == k2 && PyValue.beq v1 v2 && PyValue.beqKvs xs ys
  | _, _ => false

end

instance : BEq PyValue := ⟨PyValue.beq⟩

/-- First binding for a key, like Python `d.get(k)` / `k in d`. -/
def lookupAssoc (kvs : List (String × PyValue)) (k : String) : Option PyValue :=
  match kvs with
  | [] => Option.none
  | (k0, v) :: rest => if k0 = k then some v else lookupAssoc rest k

/-- Python substring test `needle in hay`. -/
def strContains (hay needle : String) : Bool :=
  let h := hay.toList
  let n := needle.toList
  (List.range (h.length + 1)).any fun i => n.isPrefixOf (h.drop i)

/-- Python `str.startswith`. -/
def strStartsWith (s p : String) : Bool :=
  p.toList.isPrefixOf s.toList

/-- Python `str.lower()` (ASCII range, which covers every string the code
lowers: type labels, agent names, queries). -/
def strLower (s : String) : String :=
  String.mk (s.toList.map Char.toLower)

/-- Characters Python `str.strip()` removes. -/
def isPyWhitespace (c : Char) : Bool :=
  c = Char.ofNat 32 || c = Char.ofNat 9 || c = Char.ofNat 10
    || c = Char.ofNat 13 || c = Char.ofNat 11 || c = Char.ofNat 12

/-- Python `str.strip()`: drop leading and trailing whitespace. -/
def strStrip (s : String) : String :=
  String.mk (((s.toList.dropWhile isPyWhitespace).reverse.dropWhile isPyWhitespace).reverse)

example : strContains "hello world" "lo wo" = true := by decide
example : strContains "abc" "cb" = false := by decide
example : lookupAssoc [("a", PyValue.int 1), ("b", PyValue.bool true)] "b"
    = some (PyValue.bool true) := rfl

/-- Single-quote character, written via its code point. -/
def sqChar : Char := Char.ofNat 39

/-- Double-quote character, written via its code point. -/
def dqChar : Char := Char.ofNat 34

/-- Backslash character. -/
def bsChar : Char := Char.ofNat 92

/-- Lower-case hex digit for a value below 16. -/
def hexDigit (n : Nat) : Char :=
  if n < 10 then Char.ofNat (48 + n) else Char.ofNat (87 + n)

/-- Two-digit lower-case hex rendering of a byte value. -/
def hexByte (n : Nat) : String :=
  String.mk [hexDigit (n / 16 % 16), hexDigit (n % 16)]

/-- CPython `repr` escape of a single character inside a string literal quoted
with `quote`: backslash and the quote character are backslash-escaped, newline,
carriage return and tab use their mnemonic escapes, other ASCII control
characters use a hex escape, and everything else is kept as-is. -/
def pyReprEscapeChar (quote c : Char) : String :=
  if c = bsChar then String.mk [bsChar, bsChar]
  else if c = quote then String.mk [bsChar, quote]
  else if c = Char.ofNat 10 then String.mk [bsChar, Char.ofNat 110]
  else if c = Char.ofNat 13 then String.mk [bsChar, Char.ofNat 114]
  else if c = Char.ofNat 9 then String.mk [bsChar, Char.ofNat 116]
  else if c.toNat < 32 then String.mk [bsChar, Char.ofNat 120] ++ hexByte c.toNat
  else String.singleton c

/-- CPython `repr` of a string: single quotes, switching to double quotes when
the string contains a single quote but no double quote. -/
def pyReprStr (s : String) : String :=
  let quote :=
    if s.toList.contains sqChar && !(s.toList.contains dqChar) then dqChar else sqChar
  String.singleton quote
    ++ String.join (s.toList.map (pyReprEscapeChar quote))
    ++ String.singleton quote

mutual

/-- Python `repr` of a value, as produced for dict/list elements inside
`str(value)` (used by the in-memory search haystack). -/
def pyRepr : PyValue → String
  | .none => "None"
  | .bool b => if b then "True" else "False"
  | .int n => toString n
  | .float r => r
  | .str s => pyReprStr s
  | .list xs => "[" ++ pyReprJoinList xs ++ "]"
  | .dict kvs => "\x7b" ++ pyReprJoinKvs kvs ++ "\x7d"

/-- Comma-space joined `repr`s of list elements. -/
def pyReprJoinList : List PyValue → String
  | [] => ""
  | [x] => pyRepr x
  | x :: rest => pyRepr x ++ ", " ++ pyReprJoinList rest

/-- Comma-space joined `key: value` `repr` pairs of dict entries. -/
def pyReprJoinKvs : List (String × PyValue) → String
  | [] => ""
  | [(k, v)] => pyReprStr k ++ ": " ++ pyRepr v
  | (k, v) :: rest => pyReprStr k ++ ": " ++ pyRepr v ++ ", " ++ pyReprJoinKvs rest

end

/-- Python `str(value)` at top level: strings render as themselves, every other
value renders as its `repr` (containers `repr` their elements). -/
def pyStrTop : PyValue → String
  | .str s => s
  | v => pyRepr v

/-- JSON escape of one character per `json.dumps` with `ensure_ascii=False`:
quote and backslash are escaped, the common control characters use mnemonic
escapes, remaining control characters use a `\u00XX` escape, everything else
(including non-ASCII) is kept as-is. -/
def jsonEscapeChar (c : Char) : String :=
  if c = dqChar then String.mk [bsChar, dqChar]
  else if c = bsChar then String.mk [bsChar, bsChar]
  else if c = Char.ofNat 10 then String.mk [bsChar, Char.ofNat 110]
  else if c = Char.ofNat 13 then String.mk [bsChar, Char.ofNat 114]
  else if c = Char.ofNat 9 then String.mk [bsChar, Char.ofNat 116]
  else if c.toNat < 32 then String.mk [bsChar, Char.ofNat 117] ++ "00" ++ hexByte c.toNat
  else String.singleton c

/-- JSON string literal per `json.dumps(..., ensure_ascii=False)`. -/
def jsonStr (s : String) : String :=
  String.singleton dqChar
    ++ String.join (s.toList.map jsonEscapeChar)
    ++ String.singleton dqChar

/-- Join a list of strings with a separator. -/
def joinWith (sep : String) : List String → String
  | [] => ""
  | [x] => x
  | x :: rest => x ++ sep ++ joinWith sep rest

/-- Lexicographic code-point comparison of character lists, the order Python
uses to compare strings. -/
def charListLe : List Char → List Char → Bool
  | [], _ => true
  | _ :: _, [] => false
  | x :: xs, y :: ys => if x < y then true else if y < x then false else charListLe xs ys

/-- Python string `<=`, lexicographic by code point. -/
def strLe (a b : String) : Bool := charListLe a.toList b.toList

/-- Stable insertion of an element into a key-sorted list: the new element goes
after existing elements with a less-or-equal key, matching Python stable sort. -/
def insertByKeyLe (x : String × String) : List (String × String) → List (String × String)
  | [] => [x]
  | y :: ys => if strLe y.1 x.1 then y :: insertByKeyLe x ys else x :: y :: ys

/-- Stable sort of rendered entries by key, as `sorted(d.items())` orders dict
items for `sort_keys=True`. -/
def sortByKey (pairs : List (String × String)) : List (String × String) :=
  pairs.foldl (fun acc x => insertByKeyLe x acc) []

/-- Render already-serialized dict entries in key-sorted order with minimal
separators, as `json.dumps` with `sort_keys=True` does (the serialization of a
value does not depend on its position, so sorting rendered entries agrees with
serializing sorted entries). -/
def jsonJoinSortedKvs (rendered : List (String × String)) : String :=
  joinWith "," ((sortByKey rendered).map fun kv => jsonStr kv.1 ++ ":" ++ kv.2)

mutual

/-- Canonical JSON serialization, mirroring
`json.dumps(x, sort_keys=True, separators=(",", ":"), ensure_ascii=False)`:
object keys sorted lexicographically at every level, minimal separators. -/
def jsonDumps : PyValue → String
  | .none => "null"
  | .bool b => if b then "true" else "false"
  | .int n => toString n
  | .float r => r
  | .str s => jsonStr s
  | .list xs => "[" ++ joinWith "," (jsonRenderList xs) ++ "]"
  | .dict kvs => "\x7b" ++ jsonJoinSortedKvs (jsonRenderKvs kvs) ++ "\x7d"

/-- Serializations of list elements, in order. -/
def jsonRenderList : List PyValue → List String
  | [] => []
  | x :: rest => jsonDumps x :: jsonRenderList rest

/-- Serializations of dict values, keyed, in insertion order. -/
def jsonRenderKvs : List (String × PyValue) → List (String × String)
  | [] => []
  | (k, v) :: rest => (k, jsonDumps v) :: jsonRenderKvs rest

end

example : pyStrTop (.dict [("a", .int 1)]) = "\x7b" ++ pyReprStr "a" ++ ": 1\x7d" := by
  decide
example : jsonDumps (.dict [("b", .int 2), ("a", .str "x")])
    = "\x7b" ++ jsonStr "a" ++ ":" ++ jsonStr "x" ++ "," ++ jsonStr "b" ++ ":2\x7d" := by
  decide

/-! ### Domain model: plan steps and plans (`agent_core/domain/models.py`) -/

/-- Step status enum from `domain/models.py`. -/
inductive StepStatus where
  | pending
  | running
  | complete
  | failed
deriving DecidableEq, Repr

/-- The `.value` string of a `StepStatus` member. -/
def StepStatus.value : StepStatus → String
  | .pending => "pending"
  | .running => "running"
  | .complete => "complete"
  | .failed => "failed"

/-- Plan status enum from `domain/models.py`. -/
inductive PlanStatus where
  | pending
  | planning
  | executing
  | replanning
  | complete
  | failed
deriving DecidableEq, Repr

/-- The `return_spec` value object: an output shape plus a reason. -/
structure ReturnSpecM where
  shape : PyDict
  reason : String

/-- A plan step, with timestamps modeled as abstract ticks. -/
structure PlanStep where
  stepIndex : Int
  task : String
  skills : List String
  returnSpec : ReturnSpecM
  inputFromStep : Option Int := Option.none
  status : StepStatus := .pending
  taskId : Option String := Option.none
  memoryKey : Option String := Option.none
  validated : Bool := false
  failureReason : Option String := Option.none
  startedAt : Option Nat := Option.none
  finishedAt : Option Nat := Option.none

/-- Field-wise equality of `ReturnSpecM`, as Python dataclass `==`. -/
def ReturnSpecM.beq (a b : ReturnSpecM) : Bool :=
  PyValue.beqKvs a.shape b.shape && a.reason == b.reason

/-- Field-wise equality of `PlanStep`, as Python dataclass `==` (used by the
replan merge to exclude the failed step). -/
def PlanStep.beq (a b : PlanStep) : Bool :=
  a.stepIndex == b.stepIndex && a.task == b.task && a.skills == b.skills
    && ReturnSpecM.beq a.returnSpec b.returnSpec
    && a.inputFromStep == b.inputFromStep && a.status == b.status
    && a.taskId == b.taskId && a.memoryKey == b.memoryKey
    && a.validated == b.validated && a.failureReason == b.failureReason
    && a.startedAt == b.startedAt && a.finishedAt == b.finishedAt

/-- A replan-history entry (`ReplanEvent` dataclass). -/
structure ReplanEventM where
  attempt : Nat
  trigger : String
  failedStep : Int
  reason : String
  revisedAt : Nat

/-- A plan (`Plan` dataclass), timestamps as abstract ticks. -/
structure Plan where
  sessionId : String
  tenantId : String
  userId : String
  steps : List PlanStep
  planId : String
  status : PlanStatus := .pending
  replanCount : Nat := 0
  createdAt : Nat := 0
  completedAt : Option Nat := Option.none
  replanHistory : List ReplanEventM := []

/-! ### Step state machine (`application/services/step_state_machine.py`)

Each transition either mutates the step or raises `ValueError` leaving the
step untouched; we model this as a total function returning the optional
error message together with the resulting step. -/

/-- Transition `pending → running`: stamp `started_at`, clear `finished_at`;
any other source status raises and leaves the step unchanged. -/
def markRunning (now : Nat) (step : PlanStep) : Option String × PlanStep :=
  if step.status ≠ StepStatus.pending then
    (some ("invalid transition to running from " ++ step.status.value), step)
  else
    (Option.none,
      { step with status := .running, startedAt := some now, finishedAt := Option.none })

/-- Transition `running → complete`: stamp `finished_at`; any other source
status raises and leaves the step unchanged. -/
def markComplete (now : Nat) (step : PlanStep) : Option String × PlanStep :=
  if step.status ≠ StepStatus.running then
    (some ("invalid transition to complete from " ++ step.status.value), step)
  else
    (Option.none, { step with status := .complete, finishedAt := some now })

/-- Transition `running → failed`: record the failure reason and stamp
`finished_at`; any other source status raises and leaves the step unchanged. -/
def markFailed (now : Nat) (reason : String) (step : PlanStep) : Option String × PlanStep :=
  if step.status ≠ StepStatus.running then
    (some ("invalid transition to failed from " ++ step.status.value), step)
  else
    (Option.none,
      { step with status := .failed, failureReason := some reason, finishedAt := some now })

/-- Index of the first step that is not complete, else the step count. -/
def nextPendingStepIndex (plan : Plan) : Nat :=
  plan.steps.findIdx fun step => step.status ≠ StepStatus.complete

/-! ### Plan validator (`application/services/plan_validator.py`) -/

/-- Forbidden spawn tokens checked case-insensitively as substrings. -/
def forbiddenSkillTokens : List String :=
  ["subagent", "spawn_subagent", "create_subagent", "agent/run"]

/-- Validation failure kinds, each carrying the shaped reason string. -/
inductive PlanValidationErr where
  | emptyPlan
  | overMaxSteps
  | subagentSpawning
deriving DecidableEq, Repr

/-- Plan validation: reject empty plans, plans over `max_steps`, and steps
whose skills contain a forbidden spawn token (after strip + lower). -/
def validatePlanSteps (steps : List PlanStep) (maxSteps : Nat) : Except PlanValidationErr Unit :=
  if steps.isEmpty then .error .emptyPlan
  else if maxSteps < steps.length then .error .overMaxSteps
  else if steps.any (fun step => step.skills.any fun skillName =>
      forbiddenSkillTokens.any fun tok => strContains (strLower (strStrip skillName)) tok) then
    .error .subagentSpawning
  else .ok ()

/-! ### Replan manager (`application/services/replan_manager.py`)

`replan_or_fail` mutates the plan in place and may raise; the model returns
the outcome together with the plan as left by the Python code on that path
(the planner's revised steps are an input, since the planner is an external
collaborator). -/

/-- Outcome of `replan_or_fail`: success, the structured budget-exhausted
failure, or a propagated plan-validation error for the revised steps. -/
inductive ReplanOutcome where
  | ok
  | limitReached (lastFailureStep : Int) (lastFailureReason : String) (completedCount : Nat)
  | validationFailed (e : PlanValidationErr)
deriving DecidableEq, Repr

/-- Mirror of `ReplanManager.replan_or_fail`: on exhausted budget mark the plan
failed and raise the structured failure; otherwise increment `replan_count`,
enter `replanning`, split steps, validate the revised steps (a failure
propagates, leaving the incremented count), then append the history event,
merge `completed ++ revised ++ remaining`, and return to `executing`. -/
def replanOrFail (plan : Plan) (failedStep : PlanStep) (trigger : String)
    (revised : List PlanStep) (maxReplans maxSteps now : Nat) : ReplanOutcome × Plan :=
  if maxReplans ≤ plan.replanCount then
    (.limitReached failedStep.stepIndex (failedStep.failureReason.getD "unknown_failure")
        (plan.steps.filter fun s => s.status == StepStatus.complete).length,
      { plan with status := .failed })
  else
    let plan1 := { plan with replanCount := plan.replanCount + 1, status := .replanning }
    let completed := plan1.steps.filter fun s => s.status == StepStatus.complete
    let remaining := plan1.steps.filter fun s =>
      !(s.status == StepStatus.complete) && !(PlanStep.beq s failedStep)
    match validatePlanSteps revised maxSteps with
    | .error e => (.validationFailed e, plan1)
    | .ok _ =>
        let event : ReplanEventM :=
          { attempt := plan1.replanCount, trigger := trigger,
            failedStep := failedStep.stepIndex,
            reason := failedStep.failureReason.getD "step_failed", revisedAt := now }
        (.ok,
          { plan1 with
              replanHistory := plan1.replanHistory ++ [event],
              steps := completed ++ revised ++ remaining,
              status := .executing })

/-! ### In-memory memory store (`infra/adapters/in_memory.py`)

Wall-clock instants (`time.monotonic()`) are modeled as `Nat` ticks; the
lock wait loop advances one tick per `asyncio.sleep`. -/

/-- A held write lock: `{owner_task_id, expires_at}`. -/
structure HeldLock where
  ownerTaskId : String
  expiresAt : Nat
deriving DecidableEq, Repr

/-- A stored record, with the fields `InMemoryMemoryRepository.write` persists.
The `value` is kept as a `PyValue` since `read` re-checks that it is a dict. -/
structure MemRecord where
  tenantId : String
  sessionId : String
  taskId : String
  scope : String
  key : String
  value : PyValue
  returnSpecShape : PyDict

/-- Repository state: `_data` and `_locks`, both insertion-ordered maps. -/
structure MemState where
  data : List (String × MemRecord) := []
  locks : List (String × HeldLock) := []

/-- The empty repository. -/
def MemState.empty : MemState := {}

/-- Generic assoc-list lookup by string key (Python `dict.get`). -/
def assocFind {α : Type} (kvs : List (String × α)) (k : String) : Option α :=
  match kvs with
  | [] => Option.none
  | (k0, v) :: rest => if k0 = k then some v else assocFind rest k

/-- Python `d[k] = v`: replace in place when present, else append. -/
def assocSet {α : Type} (kvs : List (String × α)) (k : String) (v : α) :
    List (String × α) :=
  match kvs with
  | [] => [(k, v)]
  | (k0, v0) :: rest =>
      if k0 = k then (k0, v) :: rest else (k0, v0) :: assocSet rest k v

/-- Python `d.pop(k, None)`: drop the binding when present. -/
def assocRemove {α : Type} (kvs : List (String × α)) (k : String) :
    List (String × α) :=
  match kvs with
  | [] => []
  | (k0, v0) :: rest => if k0 = k then rest else (k0, v0) :: assocRemove rest k

/-- Mirror of `_matches_expected_type`: a type-label string constrains the
value (`bool` is excluded from the numeric labels, as in the code), while a
non-string or unrecognized label accepts everything. -/
def matchesExpectedType (value expected : PyValue) : Bool :=
  match expected with
  | .str s =>
      let normalized := strStrip (strLower s)
      if normalized == "string" then
        match value with | .str _ => true | _ => false
      else if normalized == "int" || normalized == "integer" then
        match value with | .int _ => true | _ => false
      else if normalized == "float" || normalized == "number" then
        match value with | .int _ => true | .float _ => true | _ => false
      else if normalized == "bool" || normalized == "boolean" then
        match value with | .bool _ => true | _ => false
      else if strStartsWith normalized "array" then
        match value with | .list _ => true | _ => false
      else if normalized == "object" || normalized == "dict" || normalized == "map" then
        match value with | .dict _ => true | _ => false
      else true
  | _ => true

/-- Mirror of `_matches_return_spec_contract`: every field of the shape must
exist in the data and satisfy its type label. -/
def matchesReturnSpecContract (data shape : PyDict) : Bool :=
  shape.all fun fieldSpec =>
    match lookupAssoc data fieldSpec.1 with
    | Option.none => false
    | some v => matchesExpectedType v fieldSpec.2

/-- Mirror of `_build_namespaced_key`. -/
def buildNamespacedKey (tenantId sessionId taskId key : String) : String :=
  tenantId ++ ":" ++ sessionId ++ ":" ++ taskId ++ ":" ++ key

/-- Mirror of `_evict_expired_lock`: drop the lock for the key when its
`expires_at` has passed. -/
def evictExpiredLock (locks : List (String × HeldLock)) (namespacedKey : String)
    (now : Nat) : List (String × HeldLock) :=
  match assocFind locks namespacedKey with
  | some held => if held.expiresAt ≤ now then assocRemove locks namespacedKey else locks
  | Option.none => locks

/-- Errors raised by `InMemoryMemoryRepository.write`. -/
inductive WriteErr where
  | invalidLabel
  | contractViolation
  | lockTimeout
deriving DecidableEq, Repr

/-- One-tick-per-sleep model of the `_acquire_write_lock` loop body, with
`fuel` the number of remaining sleeps before the deadline (the caller passes
`deadline - t`, so the fuel-exhausted arm is unreachable and repeats the
deadline failure).  Each iteration evicts an expired lock, acquires when the
slot is free or owned by the same task, fails once the deadline has passed,
and otherwise sleeps and retries. -/
def acquireLoop (namespacedKey ownerTaskId : String) (ttl deadline : Nat) :
    Nat → Nat → List (String × HeldLock) →
    Except WriteErr Unit × List (String × HeldLock)
  | fuel, t, locks =>
      let locks1 := evictExpiredLock locks namespacedKey t
      match assocFind locks1 namespacedKey with
      | Option.none =>
          (.ok (), assocSet locks1 namespacedKey ⟨ownerTaskId, t + ttl⟩)
      | some held =>
          if held.ownerTaskId = ownerTaskId then
            (.ok (), assocSet locks1 namespacedKey ⟨ownerTaskId, t + ttl⟩)
          else if deadline ≤ t then (.error .lockTimeout, locks1)
          else
            match fuel with
            | 0 => (.error .lockTimeout, locks1)
            | fuel' + 1 => acquireLoop namespacedKey ownerTaskId ttl deadline fuel' (t + 1) locks1

/-- Mirror of `_acquire_write_lock` starting at instant `now` with deadline
`now + lockWaitTimeout`. -/
def acquireWriteLock (locks : List (String × HeldLock)) (namespacedKey ownerTaskId : String)
    (lockWaitTimeout ttl now : Nat) :
    Except WriteErr Unit × List (String × HeldLock) :=
  acquireLoop namespacedKey ownerTaskId ttl (now + lockWaitTimeout)
    lockWaitTimeout now locks

/-- Mirror of `InMemoryMemoryRepository.write`: reject labels containing `:`,
check the return-spec contract before touching any lock, then acquire the
per-key write lock and upsert the record.  Errors leave the state exactly as
the Python exception paths do. -/
def write (st : MemState) (lockWaitTimeout ttl now : Nat)
    (tenantId sessionId taskId key : String) (value shape : PyDict)
    (scope : String) : Except WriteErr String × MemState :=
  if strContains key ":" then (.error .invalidLabel, st)
  else if !(matchesReturnSpecContract value shape) then (.error .contractViolation, st)
  else
    let namespaced := buildNamespacedKey tenantId sessionId taskId key
    match acquireWriteLock st.locks namespaced taskId lockWaitTimeout ttl now with
    | (.error e, locks1) => (.error e, { st with locks := locks1 })
    | (.ok _, locks1) =>
        let record : MemRecord :=
          { tenantId := tenantId, sessionId := sessionId, taskId := taskId,
            scope := scope, key := key, value := .dict value,
            returnSpecShape := shape }
        (.ok namespaced,
          { data := assocSet st.data namespaced record, locks := locks1 })

/-- Mirror of `InMemoryMemoryRepository.read`: optionally release the lock
(even when no record exists), and return the stored `value` only when it is a
dict; this function never raises. -/
def readMem (st : MemState) (namespacedKey : String) (releaseLock : Bool) :
    Option PyValue × MemState :=
  let record := assocFind st.data namespacedKey
  let locks1 := if releaseLock then assocRemove st.locks namespacedKey else st.locks
  let result :=
    match record with
    | Option.none => Option.none
    | some r =>
        match r.value with
        | .dict kvs => some (PyValue.dict kvs)
        | _ => Option.none
  (result, { st with locks := locks1 })

/-- A search result row, with the fields the Python dict carries. -/
structure SearchHit where
  namespacedKey : String
  tenantId : String
  sessionId : String
  scope : String
  key : String
  value : PyValue

/-- Mirror of `InMemoryMemoryRepository.search`: filter by tenant and scope
(and session when `scope = "session"`), then match the lowered stripped query
as a substring of `"{key} {value}"` lowered; truncate to `top_k`. -/
def searchMem (st : MemState) (tenantId sessionId queryText scope : String)
    (topK : Nat) : List SearchHit :=
  let loweredQuery := strStrip (strLower queryText)
  let results := st.data.filterMap fun entry =>
    let record := entry.2
    if record.tenantId ≠ tenantId then Option.none
    else if record.scope ≠ scope then Option.none
    else if scope = "session" && record.sessionId ≠ sessionId then Option.none
    else
      let haystack := strLower (record.key ++ " " ++ pyStrTop record.value)
      if loweredQuery ≠ "" && !(strContains haystack loweredQuery) then Option.none
      else
        some { namespacedKey := entry.1, tenantId := tenantId,
               sessionId := record.sessionId, scope := scope,
               key := record.key, value := record.value }
  results.take topK

/-! ### Memory tools (`infra/adk/tool_memory.py`)

The tools are modeled from the point where `memory_json` has been parsed
into a dict; the task id (`{plan_id}:{uuid4().hex[:8]}`) is passed in as a
parameter since it is freshly generated per call. -/

/-- Mirror of `_infer_type` (bool checked before int, as in the code; a value
matching none of the `isinstance` checks — including `None` — labels as
`"string"`). -/
def inferType : PyValue → String
  | .bool _ => "boolean"
  | .int _ => "integer"
  | .float _ => "number"
  | .list _ => "array"
  | .dict _ => "object"
  | .str _ => "string"
  | .none => "string"

/-- Mirror of `_derive_return_spec`: label every top-level field by its
inferred type. -/
def deriveReturnSpec (data : PyDict) : PyDict :=
  data.map fun kv => (kv.1, PyValue.str (inferType kv.2))

/-- Mirror of `_memory_fingerprint`: canonical JSON of the payload. -/
def memoryFingerprint (memory : PyDict) : String :=
  jsonDumps (.dict memory)

/-- The dedup search query of `_find_duplicate_memory`: the payload's
`memory_text` when it is a non-blank string, else the canonical fingerprint. -/
def dedupQueryText (parsedMemory : PyDict) : String :=
  match lookupAssoc parsedMemory "memory_text" with
  | some (.str s) => if strStrip s = "" then memoryFingerprint parsedMemory else s
  | _ => memoryFingerprint parsedMemory

/-- Scan of the search candidates in `_find_duplicate_memory`: the first hit
whose stored value is a dict with the target fingerprint and a non-empty
namespaced key wins. -/
def findDupInCandidates (targetFp : String) : List SearchHit → Option String
  | [] => Option.none
  | hit :: rest =>
      match hit.value with
      | .dict kvs =>
          if memoryFingerprint kvs = targetFp ∧ hit.namespacedKey ≠ "" then
            some hit.namespacedKey
          else findDupInCandidates targetFp rest
      | _ => findDupInCandidates targetFp rest

/-- Mirror of `_find_duplicate_memory`: search top 10 in the scope with the
dedup query, then fingerprint-compare the candidates. -/
def findDuplicateMemory (st : MemState) (tenantId sessionId : String)
    (parsedMemory : PyDict) (scope : String) : Option String :=
  let candidates := searchMem st tenantId sessionId (dedupQueryText parsedMemory) scope 10
  findDupInCandidates (memoryFingerprint parsedMemory) candidates

/-- Result dict of a `save_*_memory` tool call (the fields the claims need). -/
structure SaveResult where
  status : String
  namespacedKey : Option String := Option.none
  raised : Option WriteErr := Option.none
deriving DecidableEq, Repr

/-- Shared body of `save_user_memory` / `save_action_memory` after JSON
parsing: pick the effective return spec (a falsy parsed spec falls back to the
derived one), skip the write when a duplicate is found, else write through the
repository; a repository exception propagates out of the tool. -/
def saveMemoryCore (st : MemState) (tenantId sessionId taskId : String)
    (lockWaitTimeout ttl now : Nat) (key : String) (parsedMemory : PyDict)
    (parsedSpec : Option PyDict) (scope : String) : SaveResult × MemState :=
  let effectiveSpec :=
    match parsedSpec with
    | some d => if d.isEmpty then deriveReturnSpec parsedMemory else d
    | Option.none => deriveReturnSpec parsedMemory
  match findDuplicateMemory st tenantId sessionId parsedMemory scope with
  | some dupKey => ({ status := "duplicate_skipped", namespacedKey := some dupKey }, st)
  | Option.none =>
      match write st lockWaitTimeout ttl now tenantId sessionId taskId key
          parsedMemory effectiveSpec scope with
      | (.ok namespacedKey, st') =>
          ({ status := "ok", namespacedKey := some namespacedKey }, st')
      | (.error e, st') => ({ status := "raised", raised := some e }, st')

/-- Mirror of `save_user_memory` (post-parse): user-scoped dedup and write. -/
def saveUserMemory (st : MemState) (tenantId sessionId taskId : String)
    (lockWaitTimeout ttl now : Nat) (key : String) (parsedMemory : PyDict)
    (parsedSpec : Option PyDict) : SaveResult × MemState :=
  saveMemoryCore st tenantId sessionId taskId lockWaitTimeout ttl now key
    parsedMemory parsedSpec "user"

/-- Mirror of `save_action_memory` (post-parse): session-scoped dedup and
write. -/
def saveActionMemory (st : MemState) (tenantId sessionId taskId : String)
    (lockWaitTimeout ttl now : Nat) (key : String) (parsedMemory : PyDict)
    (parsedSpec : Option PyDict) : SaveResult × MemState :=
  saveMemoryCore st tenantId sessionId taskId lockWaitTimeout ttl now key
    parsedMemory parsedSpec "session"

/-! ### Tool-call policy callback (`infra/adk/callbacks.py`) -/

/-- Memory tool names reserved for the memory sub-agent. -/
def memoryToolNames : List String :=
  ["write_memory", "read_memory", "save_user_memory", "save_action_memory",
   "search_relevant_memory"]

/-- Request-scoped policy state of `_TraceContext` (the flags the veto logic
reads and writes). -/
structure TraceCtx where
  requirePlannerFirstTransfer : Bool
  allowMemoryUsage : Bool := true
  requireMemoryPrecheck : Bool := false
  memoryPrecheckSeen : Bool := false
  plannerTransferSeen : Bool := false
  plannerFindSkillCalled : Bool := false
  plannerLoadSkillCalled : Bool := false
  plannerNoSkillFound : Bool := false
deriving DecidableEq, Repr

/-- A tool invocation as the callback sees it: tool name, calling agent,
whether `args` has a `return_spec` key, and the string `agent_name` argument
of a transfer when present. -/
structure ToolCall where
  toolName : String
  agentName : String
  hasReturnSpecArg : Bool := true
  transferDestination : Option String := Option.none
deriving DecidableEq, Repr

/-- A veto dict returned in place of execution. -/
structure Veto where
  status : String
  reason : String
  requiredAgent : Option String := Option.none
  requiredTool : Option String := Option.none
deriving DecidableEq, Repr

/-- Tail of `before_tool_callback`: planner tool-usage flags set on
fall-through (a planner call to `find_relevant_skill` or
`load_instruction(s)` marks the corresponding flag). -/
def plannerToolFlagUpdate (tc : TraceCtx) (call : ToolCall) : TraceCtx :=
  if call.agentName = "planner_subagent_a" then
    let tc1 := if call.toolName = "find_relevant_skill" then
      { tc with plannerFindSkillCalled := true } else tc
    if call.toolName = "load_instruction" ∨ call.toolName = "load_instructions" then
      { tc1 with plannerLoadSkillCalled := true } else tc1
  else tc

/-- The `transfer_to_agent` veto cascade of `before_tool_callback`, run when a
trace context is bound and the destination argument is a string; flag updates
(memory precheck seen, planner transfer seen) happen along the way exactly
where the code mutates the context. -/
def transferCascade (tc : TraceCtx) (call : ToolCall) (destination : String) :
    Option Veto × Option TraceCtx :=
  if destination = "memory_subagent_c" ∧ call.agentName ≠ "orchestrator_manager" then
    (some { status := "blocked",
            reason := "memory_transfer_allowed_only_from_orchestrator",
            requiredAgent := some "orchestrator_manager" }, some tc)
  else if call.agentName = "memory_subagent_c" ∧ destination ≠ "orchestrator_manager" then
    (some { status := "blocked",
            reason := "memory_subagent_must_return_to_orchestrator",
            requiredAgent := some "orchestrator_manager" }, some tc)
  else if destination = "communicator_subagent_d" ∧ call.agentName ≠ "orchestrator_manager" then
    (some { status := "blocked",
            reason := "communicator_transfer_allowed_only_from_orchestrator",
            requiredAgent := some "orchestrator_manager" }, some tc)
  else if destination = "memory_subagent_c" ∧ ¬tc.allowMemoryUsage then
    (some { status := "blocked", reason := "memory_usage_disabled_by_user" }, some tc)
  else
    let tc1 := if destination = "memory_subagent_c" then
      { tc with memoryPrecheckSeen := true } else tc
    if (destination = "planner_subagent_a" ∨ destination = "executor_subagent_b")
        ∧ tc1.requireMemoryPrecheck ∧ ¬tc1.memoryPrecheckSeen then
      (some { status := "blocked",
              reason := "memory_precheck_required_before_execution",
              requiredAgent := some "memory_subagent_c" }, some tc1)
    else
      let tc2 := if destination = "planner_subagent_a" then
        { tc1 with plannerTransferSeen := true, plannerFindSkillCalled := false,
                   plannerLoadSkillCalled := false, plannerNoSkillFound := false }
        else tc1
      if destination = "executor_subagent_b" ∧ tc2.requirePlannerFirstTransfer
          ∧ ¬tc2.plannerTransferSeen then
        (some { status := "blocked",
                reason := "planner_required_before_executor_first_turn",
                requiredAgent := some "planner_subagent_a" }, some tc2)
      else if destination = "executor_subagent_b" ∧ tc2.plannerTransferSeen
          ∧ ¬tc2.plannerFindSkillCalled then
        (some { status := "blocked",
                reason := "planner_must_discover_skills_before_executor",
                requiredTool := some "find_relevant_skill" }, some tc2)
      else if destination = "executor_subagent_b" ∧ tc2.plannerTransferSeen
          ∧ ¬tc2.plannerLoadSkillCalled ∧ ¬tc2.plannerNoSkillFound then
        (some { status := "blocked",
                reason := "planner_must_load_skills_before_executor",
                requiredTool := some "load_instruction_or_load_instructions" }, some tc2)
      else (Option.none, some (plannerToolFlagUpdate tc2 call))

/-- The part of `before_tool_callback` after the two memory-tool gates: the
transfer cascade when the call is a transfer with a bound context and string
destination, else the fall-through flag updates. -/
def toolPolicyTail (ctx : Option TraceCtx) (call : ToolCall) :
    Option Veto × Option TraceCtx :=
  match ctx, call.transferDestination with
  | some tc, some destination =>
      if call.toolName ≠ "transfer_to_agent" then
        (Option.none, some (plannerToolFlagUpdate tc call))
      else transferCascade tc call destination
  | _, _ =>
      (Option.none, ctx.map fun tc => plannerToolFlagUpdate tc call)

/-- Mirror of `before_tool_callback`: the `write_memory`-without-`return_spec`
check runs first, then the memory-tool agent restriction, then the transfer
cascade, then the planner tool-usage flags.  Returns the veto (if any) and the
trace context as left behind. -/
def beforeToolCallback (ctx : Option TraceCtx) (call : ToolCall) :
    Option Veto × Option TraceCtx :=
  if call.toolName = "write_memory" ∧ ¬call.hasReturnSpecArg then
    (some { status := "contract_violation", reason := "missing return_spec" }, ctx)
  else if memoryToolNames.contains call.toolName ∧ call.agentName ≠ "memory_subagent_c" then
    (some { status := "blocked", reason := "memory_tools_reserved_for_memory_subagent",
            requiredAgent := some "memory_subagent_c" }, ctx)
  else toolPolicyTail ctx call

/-! ### Sandboxed extraction (`infra/adk/tool_large_response.py`)

Scripts are modeled at the AST level as the node sequence `ast.walk`
produces; the post-validation execution of a script is an input, since the
claims concern only the validation gate and result shaping. -/

/-- The AST node kinds `_validate_script` distinguishes. -/
inductive AstNode where
  | importNode
  | importFromNode
  | withBlockNode
  | asyncWithBlockNode
  | callName (id : String)
  | otherNode
deriving DecidableEq, Repr

/-- Identifiers banned as direct call targets. -/
def bannedCalls : List String :=
  ["open", "exec", "eval", "compile", "input", "__import__", "globals",
   "locals", "vars", "getattr", "setattr", "delattr"]

/-- Whether a node is one of the banned statement forms
(import, import-from, with, async-with). -/
def isBannedSyntaxNode : AstNode → Bool
  | .importNode => true
  | .importFromNode => true
  | .withBlockNode => true
  | .asyncWithBlockNode => true
  | _ => false

/-- Whether a node is a call to a banned identifier. -/
def isBannedCallNode : AstNode → Bool
  | .callName id => bannedCalls.contains id
  | _ => false

/-- Mirror of `_validate_script` over the walked node sequence: the first
banned statement raises `exec_python_disallowed_syntax`, the first banned call
raises `exec_python_disallowed_call`. -/
def validateScript : List AstNode → Except String Unit
  | [] => .ok ()
  | node :: rest =>
      if isBannedSyntaxNode node then .error "exec_python_disallowed_syntax"
      else if isBannedCallNode node then .error "exec_python_disallowed_call"
      else validateScript rest

/-- Result dict a worker run puts on the queue. -/
structure WorkerResult where
  status : String
  reason : Option String := Option.none
  result : Option PyValue := Option.none

/-- Mirror of `_exec_python_worker` up to the validation gate: a validation
error is caught by the worker's generic handler and wrapped as
`exec_python_error:{exc}`; otherwise the sandboxed execution (an input here)
determines the result. -/
def execPythonWorker (script : List AstNode) (afterValidation : WorkerResult) :
    WorkerResult :=
  match validateScript script with
  | .error msg => { status := "failed", reason := some ("exec_python_error:" ++ msg) }
  | .ok _ => afterValidation

/-- Enriched result of `exec_python` (non-timeout path): the worker result
plus `script_hash`/`file_id`, and whether the success telemetry event
`large_response.exec_python` was emitted. -/
structure ExecPythonResult where
  status : String
  reason : Option String := Option.none
  result : Option PyValue := Option.none
  scriptHash : String
  fileId : String
  eventEmitted : Bool

/-- Mirror of `exec_python` when the worker completes before the timeout:
enrich the worker result and emit the telemetry event only on `status=ok`. -/
def execPython (script : List AstNode) (scriptHash fileId : String)
    (afterValidation : WorkerResult) : ExecPythonResult :=
  let w := execPythonWorker script afterValidation
  { status := w.status, reason := w.reason, result := w.result,
    scriptHash := scriptHash, fileId := fileId,
    eventEmitted := w.status = "ok" }

/-- Mirror of `_matches_required_fields`: the extracted value must be a dict
whose key set equals the required set. -/
def matchesRequiredFields (data : Option PyValue) (requiredFields : List String) : Bool :=
  match data with
  | some (.dict kvs) =>
      let keys := kvs.map Prod.fst
      keys.all (fun k => requiredFields.contains k)
        && requiredFields.all (fun k => keys.contains k)
  | _ => false

/-- Shaped result of `handle_large_response` (the fields the claims need). -/
structure LargeResponseResult where
  status : String
  strategy : String
  largeResponse : Bool
  reason : Option String := Option.none
  data : Option PyValue := Option.none

/-- Mirror of the spill-and-extract branch of `handle_large_response` (taken
when the UTF-8 size reaches the threshold): run the sandbox, then contract-gate
the extracted dict against the required key set. -/
def handleLargeResponseLargeBranch (requiredFields : List String)
    (script : List AstNode) (scriptHash fileId : String)
    (afterValidation : WorkerResult) : LargeResponseResult :=
  let execution := execPython script scriptHash fileId afterValidation
  if execution.status ≠ "ok" then
    { status := "failed", strategy := "write_temp_read_lines_exec_python",
      largeResponse := true,
      reason := some (execution.reason.getD "exec_python_failed") }
  else if !(matchesRequiredFields execution.result requiredFields) then
    { status := "failed", strategy := "write_temp_read_lines_exec_python",
      largeResponse := true, reason := some "extraction_contract_violation" }
  else
    { status := "ok", strategy := "write_temp_read_lines_exec_python",
      largeResponse := true, data := execution.result }

/-! ## Helper lemmas -/

/-- A key absent from the key list is not found. -/
theorem assocFind_eq_none_of_not_mem {α : Type} (kvs : List (String × α)) (k : String)
    (h : k ∉ kvs.map Prod.fst) : assocFind kvs k = Option.none := by
  induction kvs with
  | nil => rfl
  | cons head tail ih =>
      simp only [List.map_cons, List.mem_cons, not_or] at h
      have hne : ¬head.1 = k := fun hk => h.1 hk.symm
      simp only [assocFind, if_neg hne]
      exact ih h.2

/-- Removing a key from a duplicate-free association list makes it
unfindable. -/
theorem assocFind_assocRemove_self {α : Type} (kvs : List (String × α)) (k : String)
    (h : (kvs.map Prod.fst).Nodup) : assocFind (assocRemove kvs k) k = Option.none := by
  induction kvs with
  | nil => rfl
  | cons head tail ih =>
      simp only [List.map_cons, List.nodup_cons] at h
      by_cases hk : head.1 = k
      · simp only [assocRemove, if_pos hk]
        exact assocFind_eq_none_of_not_mem tail k (hk ▸ h.1)
      · simp only [assocRemove, if_neg hk, assocFind, if_neg hk]
        exact ih h.2

/-- A lock held by another owner that outlives the whole wait window makes the
acquire loop time out without touching the lock table. -/
theorem acquireLoop_timeout (key owner o : String) (exp ttl deadline : Nat)
    (locks : List (String × HeldLock)) (fuel t : Nat)
    (hfind : assocFind locks key = some ⟨o, exp⟩)
    (ho : o ≠ owner) (hexp : deadline < exp) (ht : t ≤ deadline) :
    acquireLoop key owner ttl deadline fuel t locks
      = (.error .lockTimeout, locks) := by
  induction fuel generalizing t with
  | zero =>
      have hnotexp : ¬exp ≤ t := by omega
      have hev : evictExpiredLock locks key t = locks := by
        simp [evictExpiredLock, hfind, hnotexp]
      simp only [acquireLoop, hev, hfind]
      rw [if_neg ho]
      split <;> rfl
  | succ fuel ih =>
      have hnotexp : ¬exp ≤ t := by omega
      have hev : evictExpiredLock locks key t = locks := by
        simp [evictExpiredLock, hfind, hnotexp]
      simp only [acquireLoop, hev, hfind]
      rw [if_neg ho]
      by_cases hd : deadline ≤ t
      · rw [if_pos hd]
      · rw [if_neg hd]
        exact ih (t + 1) (by omega)

/-- A same-owner unexpired lock is re-acquired immediately with a fresh TTL. -/
theorem acquireLoop_same_owner (key owner : String) (exp ttl deadline : Nat)
    (locks : List (String × HeldLock)) (fuel t : Nat)
    (hfind : assocFind locks key = some ⟨owner, exp⟩) (ht : t < exp) :
    acquireLoop key owner ttl deadline fuel t locks
      = (.ok (), assocSet locks key ⟨owner, t + ttl⟩) := by
  have hnotexp : ¬exp ≤ t := by omega
  cases fuel <;>
    simp [acquireLoop, evictExpiredLock, hfind, if_neg hnotexp]

/-- A foreign lock already expired at the current tick is evicted and the slot
acquired at once (duplicate-free lock keys). -/
theorem acquireLoop_expired_now (key owner o : String) (exp ttl deadline : Nat)
    (locks : List (String × HeldLock)) (fuel t : Nat)
    (hnd : (locks.map Prod.fst).Nodup)
    (hfind : assocFind locks key = some ⟨o, exp⟩) (hexp : exp ≤ t) :
    acquireLoop key owner ttl deadline fuel t locks
      = (.ok (), assocSet (assocRemove locks key) key ⟨owner, t + ttl⟩) := by
  have hgone : assocFind (assocRemove locks key) key = Option.none :=
    assocFind_assocRemove_self locks key hnd
  cases fuel <;>
    simp [acquireLoop, evictExpiredLock, hfind, hexp, hgone]

/-- A foreign lock that expires strictly later but within the wait window is
waited out: the loop sleeps until the expiry tick, evicts, and acquires with
the TTL counted from the expiry tick. -/
theorem acquireLoop_expires_in_window (key owner o : String) (exp ttl deadline : Nat)
    (locks : List (String × HeldLock)) (fuel t : Nat)
    (hnd : (locks.map Prod.fst).Nodup)
    (hfind : assocFind locks key = some ⟨o, exp⟩)
    (ho : o ≠ owner) (ht : t < exp) (hexp : exp ≤ deadline)
    (hfuel : deadline ≤ t + fuel) :
    acquireLoop key owner ttl deadline fuel t locks
      = (.ok (), assocSet (assocRemove locks key) key ⟨owner, exp + ttl⟩) := by
  induction fuel generalizing t with
  | zero => omega
  | succ fuel ih =>
      have hnotexp : ¬exp ≤ t := by omega
      have hdl : ¬deadline ≤ t := by omega
      simp only [acquireLoop, evictExpiredLock, hfind, if_neg hnotexp, if_neg ho,
        if_neg hdl]
      by_cases hnext : exp ≤ t + 1
      · have : exp = t + 1 := by omega
        subst this
        exact acquireLoop_expired_now key owner o (t + 1) ttl deadline locks fuel (t + 1)
          hnd hfind (by omega)
      · exact ih (t + 1) (by omega) (by omega)

/-! ## Claim theorems -/

/-- Claim C3: `mark_running` succeeds only from `pending`, stamping
`started_at` and clearing `finished_at`; `mark_complete` succeeds only from
`running`, stamping `finished_at`; `mark_failed` succeeds only from `running`,
recording the failure reason and stamping `finished_at`; any other attempted
transition fails with an explicit error and leaves the step unmodified. -/
theorem claim_C3_step_state_machine (now : Nat) (reason : String) (step : PlanStep) :
    (step.status = StepStatus.pending →
      markRunning now step =
        (Option.none,
          { step with
              status := .running, startedAt := some now, finishedAt := Option.none }))
    ∧ (step.status ≠ StepStatus.pending →
      markRunning now step =
        (some ("invalid transition to running from " ++ step.status.value), step))
    ∧ (step.status = StepStatus.running →
      markComplete now step =
        (Option.none, { step with status := .complete, finishedAt := some now }))
    ∧ (step.status ≠ StepStatus.running →
      markComplete now step =
        (some ("invalid transition to complete from " ++ step.status.value), step))
    ∧ (step.status = StepStatus.running →
      markFailed now reason step =
        (Option.none,
          { step with
              status := .failed, failureReason := some reason, finishedAt := some now }))
    ∧ (step.status ≠ StepStatus.running →
      markFailed now reason step =
        (some ("invalid transition to failed from " ++ step.status.value), step)) := by
  refine ⟨?_, ?_, ?_, ?_, ?_, ?_⟩ <;> intro h <;>
    simp [markRunning, markComplete, markFailed, h]

/-- Sample pending step used to instantiate claim theorems. -/
def samplePendingStep : PlanStep :=
  { stepIndex := 1, task := "collect", skills := ["s1"],
    returnSpec := { shape := [("intent", PyValue.str "string")], reason := "demo" } }

/-- Sample running step used to instantiate claim theorems. -/
def sampleRunningStep : PlanStep :=
  { samplePendingStep with status := .running, startedAt := some 3 }

/-- Witness for C3: each transition case evaluated at a concrete step. -/
theorem claim_C3_step_state_machine_witness :
    markRunning 5 samplePendingStep =
      (Option.none,
        { samplePendingStep with
            status := .running, startedAt := some 5, finishedAt := Option.none })
    ∧ markRunning 5 sampleRunningStep =
      (some "invalid transition to running from running", sampleRunningStep)
    ∧ markComplete 7 sampleRunningStep =
      (Option.none, { sampleRunningStep with status := .complete, finishedAt := some 7 })
    ∧ markComplete 7 samplePendingStep =
      (some "invalid transition to complete from pending", samplePendingStep)
    ∧ markFailed 9 "boom" sampleRunningStep =
      (Option.none,
        { sampleRunningStep with
            status := .failed, failureReason := some "boom", finishedAt := some 9 })
    ∧ markFailed 9 "boom" samplePendingStep =
      (some "invalid transition to failed from pending", samplePendingStep) :=
  ⟨(claim_C3_step_state_machine 5 "boom" samplePendingStep).1 rfl,
   (claim_C3_step_state_machine 5 "boom" sampleRunningStep).2.1 (by decide),
   (claim_C3_step_state_machine 7 "boom" sampleRunningStep).2.2.1 rfl,
   (claim_C3_step_state_machine 7 "boom" samplePendingStep).2.2.2.1 (by decide),
   (claim_C3_step_state_machine 9 "boom" sampleRunningStep).2.2.2.2.1 rfl,
   (claim_C3_step_state_machine 9 "boom" samplePendingStep).2.2.2.2.2 (by decide)⟩

/-- Claim C9: a boolean never satisfies the numeric type labels (`int`,
`integer`, `float`, `number`), so a shape declaring `int` for a boolean field
fails the contract, while a non-string expected value, or a label outside the
recognized set (after lowering and stripping, including the `array` prefix
family), accepts every value. -/
theorem claim_C9_type_label_check :
    (∀ (b : Bool) (s : String),
      strStrip (strLower s) ∈ ["int", "integer", "float", "number"] →
      matchesExpectedType (.bool b) (.str s) = false)
    ∧ (∀ (f : String) (b : Bool),
      matchesReturnSpecContract [(f, .bool b)] [(f, .str "int")] = false)
    ∧ (∀ (value expected : PyValue), (∀ s, expected ≠ .str s) →
      matchesExpectedType value expected = true)
    ∧ (∀ (value : PyValue) (s : String),
      strStrip (strLower s) ∉
        ["string", "int", "integer", "float", "number", "bool", "boolean",
         "object", "dict", "map"] →
      strStartsWith (strStrip (strLower s)) "array" = false →
      matchesExpectedType value (.str s) = true) := by
  refine ⟨?_, ?_, ?_, ?_⟩
  · intro b s hs
    simp only [List.mem_cons, List.not_mem_nil, or_false] at hs
    rcases hs with h | h | h | h <;> simp [matchesExpectedType, h]
  · intro f b
    have hm : matchesExpectedType (.bool b) (.str "int") = false := by
      cases b <;> decide
    simp [matchesReturnSpecContract, lookupAssoc, hm]
  · intro value expected h
    cases expected with
    | str s => exact absurd rfl (h s)
    | _ => simp [matchesExpectedType]
  · intro value s hmem hpre
    simp only [List.mem_cons, List.not_mem_nil, or_false, not_or] at hmem
    obtain ⟨h1, h2, h3, h4, h5, h6, h7, h8, h9, h10⟩ := hmem
    simp [matchesExpectedType, h1, h2, h3, h4, h5, h6, h7, h8, h9, h10, hpre]

/-- Witness for C9: each conjunct evaluated at concrete labels and values. -/
theorem claim_C9_type_label_check_witness :
    matchesExpectedType (.bool true) (.str " Int ") = false
    ∧ matchesReturnSpecContract [("n", .bool false)] [("n", .str "int")] = false
    ∧ matchesExpectedType (.str "x") (.int 7) = true
    ∧ matchesExpectedType (.bool true) (.str "uuid") = true :=
  ⟨claim_C9_type_label_check.1 true " Int " (by decide),
   claim_C9_type_label_check.2.1 "n" false,
   claim_C9_type_label_check.2.2.1 (.str "x") (.int 7) (fun s => by simp),
   claim_C9_type_label_check.2.2.2 (.bool true) "uuid" (by decide) (by decide)⟩

/-- Claim C10: `read` with `release_lock=true` removes any held lock for the
key even when no record is stored there (with duplicate-free lock keys, the
key is no longer locked afterwards); `read` never raises, returning `None`
when the key is absent or the stored value is not a dict, and the stored
value otherwise; the data map is never modified. -/
theorem claim_C10_read_semantics (st : MemState) (key : String) :
    (readMem st key true).2.locks = assocRemove st.locks key
    ∧ ((st.locks.map Prod.fst).Nodup →
      assocFind (readMem st key true).2.locks key = Option.none)
    ∧ (readMem st key false).2.locks = st.locks
    ∧ (∀ b, (readMem st key b).2.data = st.data)
    ∧ (assocFind st.data key = Option.none → ∀ b, (readMem st key b).1 = Option.none)
    ∧ (∀ r, assocFind st.data key = some r →
        (∀ kvs, r.value ≠ PyValue.dict kvs) → ∀ b, (readMem st key b).1 = Option.none)
    ∧ (∀ r kvs, assocFind st.data key = some r → r.value = PyValue.dict kvs →
        ∀ b, (readMem st key b).1 = some (PyValue.dict kvs)) := by
  refine ⟨?_, ?_, ?_, ?_, ?_, ?_, ?_⟩
  · simp [readMem]
  · intro h
    simpa [readMem] using assocFind_assocRemove_self st.locks key h
  · simp [readMem]
  · intro b; simp [readMem]
  · intro h b; simp [readMem, h]
  · intro r h hnd b
    cases hv : r.value with
    | dict kvs => exact absurd hv (hnd kvs)
    | none => simp [readMem, h, hv]
    | bool b2 => simp [readMem, h, hv]
    | int n => simp [readMem, h, hv]
    | float fr => simp [readMem, h, hv]
    | str s => simp [readMem, h, hv]
    | list xs => simp [readMem, h, hv]
  · intro r kvs h hv b
    simp [readMem, h, hv]

/-- Witness for C10: a concrete state with a held lock on a key that has no
stored record, plus stored dict and non-dict records. -/
theorem claim_C10_read_semantics_witness :
    (readMem
        { data := [("t:s:x:r1",
            { tenantId := "t", sessionId := "s", taskId := "x", scope := "session",
              key := "r1", value := PyValue.str "plain", returnSpecShape := [] })],
          locks := [("t:s:x:ghost", { ownerTaskId := "x", expiresAt := 90 })] }
        "t:s:x:ghost" true).2.locks = []
    ∧ (readMem
        { data := [("t:s:x:r1",
            { tenantId := "t", sessionId := "s", taskId := "x", scope := "session",
              key := "r1", value := PyValue.str "plain", returnSpecShape := [] })],
          locks := [("t:s:x:ghost", { ownerTaskId := "x", expiresAt := 90 })] }
        "t:s:x:r1" false).1 = Option.none := by
  constructor
  · have h := (claim_C10_read_semantics
      { data := [("t:s:x:r1",
          { tenantId := "t", sessionId := "s", taskId := "x", scope := "session",
            key := "r1", value := PyValue.str "plain", returnSpecShape := [] })],
        locks := [("t:s:x:ghost", { ownerTaskId := "x", expiresAt := 90 })] }
      "t:s:x:ghost").1
    simpa [assocRemove] using h
  · exact (claim_C10_read_semantics
      { data := [("t:s:x:r1",
          { tenantId := "t", sessionId := "s", taskId := "x", scope := "session",
            key := "r1", value := PyValue.str "plain", returnSpecShape := [] })],
        locks := [("t:s:x:ghost", { ownerTaskId := "x", expiresAt := 90 })] }
      "t:s:x:r1").2.2.2.2.2.1
      { tenantId := "t", sessionId := "s", taskId := "x", scope := "session",
        key := "r1", value := PyValue.str "plain", returnSpecShape := [] }
      rfl (fun kvs h => by simp at h) false

/-- Claim C5 counterexample: a write whose value misses a required field but
whose label contains `:` fails with the label error, not `contract_violation`
(the label check runs first), so the claim as stated does not hold for every
contract-violating write. -/
theorem claim_C5_counterexample :
    matchesReturnSpecContract [] [("x", PyValue.str "string")] = false
    ∧ (write MemState.empty 5 30 0 "t" "s" "task" "a:b" []
        [("x", PyValue.str "string")] "session").1
      = Except.error WriteErr.invalidLabel
    ∧ (Except.error WriteErr.invalidLabel : Except WriteErr String)
      ≠ Except.error WriteErr.contractViolation :=
  ⟨by decide, rfl, by simp⟩

/-- Claim C5 (amended): for every write whose label is free of `:` and whose
value fails the return-spec shape check, the write fails with
`contract_violation` and the state — locks and data — is returned unchanged
(the check runs before any lock is acquired). -/
theorem claim_C5_contract_before_lock (st : MemState) (wt ttl now : Nat)
    (tenantId sessionId taskId key : String) (value shape : PyDict) (scope : String)
    (hkey : strContains key ":" = false)
    (hcontract : matchesReturnSpecContract value shape = false) :
    write st wt ttl now tenantId sessionId taskId key value shape scope
      = (Except.error WriteErr.contractViolation, st) := by
  simp [write, hkey, hcontract]

/-- Witness for the amended C5: a concrete write with a missing required field
fails with `contract_violation` leaving a non-trivial state untouched. -/
theorem claim_C5_contract_before_lock_witness :
    write { data := [], locks := [("t:s:other:k", { ownerTaskId := "other", expiresAt := 99 })] }
        5 30 0 "t" "s" "task" "k" [("extra", PyValue.int 1)]
        [("intent", PyValue.str "string")] "session"
      = (Except.error WriteErr.contractViolation,
         { data := [], locks := [("t:s:other:k", { ownerTaskId := "other", expiresAt := 99 })] }) :=
  claim_C5_contract_before_lock
    { data := [], locks := [("t:s:other:k", { ownerTaskId := "other", expiresAt := 99 })] }
    5 30 0 "t" "s" "task" "k" [("extra", PyValue.int 1)]
    [("intent", PyValue.str "string")] "session" (by decide) (by decide)

/-- Claim C1 counterexample: a `write_memory` call by the planner sub-agent
without `return_spec` yields the `contract_violation` result of the
missing-return-spec check, not the claimed `blocked` /
`memory_tools_reserved_for_memory_subagent` veto: the code evaluates the
return-spec check before the memory-tool agent restriction. -/
theorem claim_C1_counterexample :
    (beforeToolCallback (some { requirePlannerFirstTransfer := true })
        { toolName := "write_memory", agentName := "planner_subagent_a",
          hasReturnSpecArg := false }).1
      = some { status := "contract_violation", reason := "missing return_spec" }
    ∧ (some { status := "contract_violation", reason := "missing return_spec" } : Option Veto)
      ≠ some { status := "blocked", reason := "memory_tools_reserved_for_memory_subagent",
               requiredAgent := some "memory_subagent_c" } :=
  ⟨rfl, by decide⟩

/-- Claim C1 (amended): for a `write_memory` call by an agent other than the
memory sub-agent, the missing-return-spec check is evaluated first: without a
`return_spec` argument the callback returns
`{status:"contract_violation", reason:"missing return_spec"}` (context
untouched); with `return_spec` present, the memory-tool reservation veto
`{status:"blocked", reason:memory_tools_reserved_for_memory_subagent}` fires. -/
theorem claim_C1_write_memory_policy_order (ctx : Option TraceCtx) (call : ToolCall)
    (hname : call.toolName = "write_memory")
    (hagent : call.agentName ≠ "memory_subagent_c") :
    (call.hasReturnSpecArg = false →
      beforeToolCallback ctx call
        = (some { status := "contract_violation", reason := "missing return_spec" }, ctx))
    ∧ (call.hasReturnSpecArg = true →
      beforeToolCallback ctx call
        = (some { status := "blocked",
                  reason := "memory_tools_reserved_for_memory_subagent",
                  requiredAgent := some "memory_subagent_c" }, ctx)) := by
  constructor <;> intro h
  · have hcond : call.toolName = "write_memory" ∧ ¬(call.hasReturnSpecArg = true) :=
      ⟨hname, by simp [h]⟩
    rw [beforeToolCallback, if_pos hcond]
  · have hcond1 : ¬(call.toolName = "write_memory" ∧ ¬(call.hasReturnSpecArg = true)) :=
      fun hc => hc.2 h
    have hcond2 : memoryToolNames.contains call.toolName = true
        ∧ call.agentName ≠ "memory_subagent_c" :=
      ⟨by rw [hname]; decide, hagent⟩
    rw [beforeToolCallback, if_neg hcond1, if_pos hcond2]

/-- Witness for the amended C1: both branches at a concrete executor-agent
call. -/
theorem claim_C1_write_memory_policy_order_witness :
    beforeToolCallback (some { requirePlannerFirstTransfer := false })
        { toolName := "write_memory", agentName := "executor_subagent_b",
          hasReturnSpecArg := false }
      = (some { status := "contract_violation", reason := "missing return_spec" },
         some { requirePlannerFirstTransfer := false })
    ∧ beforeToolCallback (some { requirePlannerFirstTransfer := false })
        { toolName := "write_memory", agentName := "executor_subagent_b",
          hasReturnSpecArg := true }
      = (some { status := "blocked",
                reason := "memory_tools_reserved_for_memory_subagent",
                requiredAgent := some "memory_subagent_c" },
         some { requirePlannerFirstTransfer := false }) :=
  ⟨(claim_C1_write_memory_policy_order (some { requirePlannerFirstTransfer := false })
      { toolName := "write_memory", agentName := "executor_subagent_b",
        hasReturnSpecArg := false } rfl (by decide)).1 rfl,
   (claim_C1_write_memory_policy_order (some { requirePlannerFirstTransfer := false })
      { toolName := "write_memory", agentName := "executor_subagent_b",
        hasReturnSpecArg := true } rfl (by decide)).2 rfl⟩

/-- Claim C8 counterexample: a script whose AST contains an `import` node
(e.g. `import os` before an assignment) fails, but with reason
`exec_python_error:exec_python_disallowed_syntax` — the worker's generic
exception handler prefixes the validator's message — not the bare
`exec_python_disallowed_syntax` the claim states. -/
theorem claim_C8_counterexample :
    (execPython [AstNode.otherNode, AstNode.importNode, AstNode.otherNode]
        "hash0" "file0" { status := "ok" }).status = "failed"
    ∧ (execPython [AstNode.otherNode, AstNode.importNode, AstNode.otherNode]
        "hash0" "file0" { status := "ok" }).reason
      = some "exec_python_error:exec_python_disallowed_syntax"
    ∧ (some "exec_python_error:exec_python_disallowed_syntax" : Option String)
      ≠ some "exec_python_disallowed_syntax" :=
  ⟨rfl, rfl, by decide⟩

/-- A script whose first banned AST node is a banned statement form makes
`_validate_script` raise `exec_python_disallowed_syntax`. -/
theorem validateScript_syntax_error (pre post : List AstNode) (n : AstNode)
    (hn : isBannedSyntaxNode n = true)
    (hpre : ∀ m ∈ pre, isBannedSyntaxNode m = false ∧ isBannedCallNode m = false) :
    validateScript (pre ++ n :: post) = Except.error "exec_python_disallowed_syntax" := by
  induction pre with
  | nil => simp [validateScript, hn]
  | cons head tail ih =>
      have hh := hpre head (by simp)
      simp only [List.cons_append, validateScript, hh.1, hh.2, Bool.false_eq_true,
        if_false]
      exact ih fun m hm => hpre m (by simp [hm])

/-- Claim C8 (amended): for every sandbox invocation whose script contains a
banned statement node (such as the `Import` node of `import os`) before any
other banned construct, and whatever the post-validation execution would
produce, `exec_python` fails with reason
`exec_python_error:exec_python_disallowed_syntax` and emits no success event,
and `handle_large_response` on its spill-and-extract branch propagates the
same failure reason. -/
theorem claim_C8_import_rejected (pre post : List AstNode) (n : AstNode)
    (scriptHash fileId : String) (afterValidation : WorkerResult)
    (requiredFields : List String)
    (hn : isBannedSyntaxNode n = true)
    (hpre : ∀ m ∈ pre, isBannedSyntaxNode m = false ∧ isBannedCallNode m = false) :
    execPython (pre ++ n :: post) scriptHash fileId afterValidation
      = { status := "failed",
          reason := some "exec_python_error:exec_python_disallowed_syntax",
          result := Option.none, scriptHash := scriptHash, fileId := fileId,
          eventEmitted := false }
    ∧ handleLargeResponseLargeBranch requiredFields (pre ++ n :: post)
        scriptHash fileId afterValidation
      = { status := "failed", strategy := "write_temp_read_lines_exec_python",
          largeResponse := true,
          reason := some "exec_python_error:exec_python_disallowed_syntax",
          data := Option.none } := by
  have hv := validateScript_syntax_error pre post n hn hpre
  constructor
  · simp [execPython, execPythonWorker, hv]
  · simp [handleLargeResponseLargeBranch, execPython, execPythonWorker, hv]

/-- Witness for the amended C8: the walked AST of
`import os` + `result = ...` (module, import, assign nodes). -/
theorem claim_C8_import_rejected_witness :
    execPython [AstNode.otherNode, AstNode.importNode, AstNode.otherNode]
        "abc123" "tmpfile" { status := "ok", result := some (PyValue.dict []) }
      = { status := "failed",
          reason := some "exec_python_error:exec_python_disallowed_syntax",
          result := Option.none, scriptHash := "abc123", fileId := "tmpfile",
          eventEmitted := false }
    ∧ handleLargeResponseLargeBranch ["response_text"]
        [AstNode.otherNode, AstNode.importNode, AstNode.otherNode]
        "abc123" "tmpfile" { status := "ok", result := some (PyValue.dict []) }
      = { status := "failed", strategy := "write_temp_read_lines_exec_python",
          largeResponse := true,
          reason := some "exec_python_error:exec_python_disallowed_syntax",
          data := Option.none } :=
  claim_C8_import_rejected [AstNode.otherNode] [AstNode.otherNode] AstNode.importNode
    "abc123" "tmpfile" { status := "ok", result := some (PyValue.dict []) }
    ["response_text"] (by decide)
    (fun m hm => by
      simp only [List.mem_singleton] at hm
      subst hm
      exact ⟨rfl, rfl⟩)

/-- A failed step used to exercise the replan manager. -/
def c2FailedStep : PlanStep :=
  { stepIndex := 1, task := "fetch", skills := ["s1"],
    returnSpec := { shape := [("intent", PyValue.str "string")], reason := "demo" },
    status := .failed, taskId := some "task-1", failureReason := some "boom",
    startedAt := some 1, finishedAt := some 2 }

/-- A plan holding only the failed step, before any replan. -/
def c2Plan : Plan :=
  { sessionId := "s", tenantId := "t", userId := "u", steps := [c2FailedStep],
    planId := "p1", status := .executing, replanCount := 0, createdAt := 0,
    replanHistory := [] }

/-- Claim C2: a replan attempt whose revised steps fail plan validation (here:
the planner returns an empty revision) leaves `replan_count` incremented while
`replan_history` is unchanged, so the invariant
`replan_count = |replan_history|` is broken in a state reachable from a plan
that satisfied it. -/
theorem claim_C2_invariant_broken :
    c2Plan.replanCount = c2Plan.replanHistory.length
    ∧ (replanOrFail c2Plan c2FailedStep "step_failed" [] 3 10 5).1
      = ReplanOutcome.validationFailed PlanValidationErr.emptyPlan
    ∧ (replanOrFail c2Plan c2FailedStep "step_failed" [] 3 10 5).2.replanCount = 1
    ∧ (replanOrFail c2Plan c2FailedStep "step_failed" [] 3 10 5).2.replanHistory.length = 0
    ∧ (replanOrFail c2Plan c2FailedStep "step_failed" [] 3 10 5).2.replanCount
      ≠ (replanOrFail c2Plan c2FailedStep "step_failed" [] 3 10 5).2.replanHistory.length :=
  ⟨rfl, rfl, rfl, rfl, by decide⟩

/-- Claim C6: on a replan trigger with remaining budget and revised steps that
pass validation, the plan becomes `completed ++ revised ++ remaining` (the
remaining non-complete steps excluding the failed one), `replan_count` is
incremented, a `ReplanEvent` recording the trigger and the failed step index is
appended, and the plan returns to `executing`. -/
theorem claim_C6_replan_merge (plan : Plan) (failedStep : PlanStep) (trigger : String)
    (revised : List PlanStep) (maxReplans maxSteps now : Nat)
    (hbudget : plan.replanCount < maxReplans)
    (hvalid : validatePlanSteps revised maxSteps = .ok ()) :
    replanOrFail plan failedStep trigger revised maxReplans maxSteps now
      = (.ok,
        { plan with
            replanCount := plan.replanCount + 1,
            status := .executing,
            steps := (plan.steps.filter fun s => s.status == StepStatus.complete)
              ++ revised
              ++ (plan.steps.filter fun s =>
                    !(s.status == StepStatus.complete) && !(PlanStep.beq s failedStep)),
            replanHistory := plan.replanHistory
              ++ [{ attempt := plan.replanCount + 1, trigger := trigger,
                    failedStep := failedStep.stepIndex,
                    reason := failedStep.failureReason.getD "step_failed",
                    revisedAt := now }] }) := by
  have hle : ¬maxReplans ≤ plan.replanCount := by omega
  simp [replanOrFail, hle, hvalid]

/-- A completed first step for the C6 witness plan. -/
def c6CompleteStep : PlanStep :=
  { stepIndex := 1, task := "gather", skills := ["s1"],
    returnSpec := { shape := [("intent", PyValue.str "string")], reason := "demo" },
    status := .complete, taskId := some "task-1", memoryKey := some "t:s:task-1:k",
    startedAt := some 1, finishedAt := some 2 }

/-- A pending trailing step for the C6 witness plan. -/
def c6PendingStep : PlanStep :=
  { stepIndex := 3, task := "report", skills := ["s3"],
    returnSpec := { shape := [("summary", PyValue.str "string")], reason := "demo" } }

/-- The failed middle step for the C6 witness plan. -/
def c6FailedStep : PlanStep :=
  { stepIndex := 2, task := "fetch", skills := ["s2"],
    returnSpec := { shape := [("intent", PyValue.str "string")], reason := "demo" },
    status := .failed, taskId := some "task-2", failureReason := some "boom",
    startedAt := some 3, finishedAt := some 4 }

/-- The revised replacement step returned by the planner in the C6 witness. -/
def c6RevisedStep : PlanStep :=
  { stepIndex := 2, task := "fetch again", skills := ["s2"],
    returnSpec := { shape := [("intent", PyValue.str "string")], reason := "demo" } }

/-- The C6 witness plan: complete, failed, pending. -/
def c6Plan : Plan :=
  { sessionId := "s", tenantId := "t", userId := "u",
    steps := [c6CompleteStep, c6FailedStep, c6PendingStep],
    planId := "p6", status := .executing, replanCount := 0, createdAt := 0,
    replanHistory := [] }

/-- Witness for C6 at a concrete three-step plan. -/
theorem claim_C6_replan_merge_witness :
    replanOrFail c6Plan c6FailedStep "contract_violation" [c6RevisedStep] 3 10 7
      = (.ok,
        { c6Plan with
            replanCount := c6Plan.replanCount + 1,
            status := .executing,
            steps := (c6Plan.steps.filter fun s => s.status == StepStatus.complete)
              ++ [c6RevisedStep]
              ++ (c6Plan.steps.filter fun s =>
                    !(s.status == StepStatus.complete) && !(PlanStep.beq s c6FailedStep)),
            replanHistory := c6Plan.replanHistory
              ++ [{ attempt := c6Plan.replanCount + 1, trigger := "contract_violation",
                    failedStep := c6FailedStep.stepIndex,
                    reason := c6FailedStep.failureReason.getD "step_failed",
                    revisedAt := 7 }] }) :=
  claim_C6_replan_merge c6Plan c6FailedStep "contract_violation" [c6RevisedStep] 3 10 7
    (by decide) rfl

/-- Claim C4: for a contract-passing write to a namespaced key, (a) a lock
held by a different `owner_task_id` that does not expire within the wait
window makes the write wait out the window and fail with
`memory_lock_timeout`, leaving the state unchanged; (b) a write under a
same-owner unexpired lock succeeds immediately and re-acquires the lock with
a fresh TTL (idempotent re-entry); (c) a foreign lock whose TTL expires
within the window is evicted and the write succeeds, holding the lock from
the expiry instant. -/
theorem claim_C4_write_lock_semantics (st : MemState) (wt ttl now : Nat)
    (tenantId sessionId taskId key : String) (value shape : PyDict) (scope : String)
    (hkey : strContains key ":" = false)
    (hcontract : matchesReturnSpecContract value shape = true) :
    (∀ o exp,
      assocFind st.locks (buildNamespacedKey tenantId sessionId taskId key)
        = some ⟨o, exp⟩ →
      o ≠ taskId → now + wt < exp →
      write st wt ttl now tenantId sessionId taskId key value shape scope
        = (.error .lockTimeout, st))
    ∧ (∀ exp,
      assocFind st.locks (buildNamespacedKey tenantId sessionId taskId key)
        = some ⟨taskId, exp⟩ →
      now < exp →
      write st wt ttl now tenantId sessionId taskId key value shape scope
        = (.ok (buildNamespacedKey tenantId sessionId taskId key),
           { data := assocSet st.data (buildNamespacedKey tenantId sessionId taskId key)
               { tenantId := tenantId, sessionId := sessionId, taskId := taskId,
                 scope := scope, key := key, value := .dict value,
                 returnSpecShape := shape },
             locks := assocSet st.locks (buildNamespacedKey tenantId sessionId taskId key)
               ⟨taskId, now + ttl⟩ }))
    ∧ (∀ o exp,
      (st.locks.map Prod.fst).Nodup →
      assocFind st.locks (buildNamespacedKey tenantId sessionId taskId key)
        = some ⟨o, exp⟩ →
      o ≠ taskId → exp ≤ now + wt →
      write st wt ttl now tenantId sessionId taskId key value shape scope
        = (.ok (buildNamespacedKey tenantId sessionId taskId key),
           { data := assocSet st.data (buildNamespacedKey tenantId sessionId taskId key)
               { tenantId := tenantId, sessionId := sessionId, taskId := taskId,
                 scope := scope, key := key, value := .dict value,
                 returnSpecShape := shape },
             locks := assocSet
               (assocRemove st.locks (buildNamespacedKey tenantId sessionId taskId key))
               (buildNamespacedKey tenantId sessionId taskId key)
               ⟨taskId, max now exp + ttl⟩ })) := by
  refine ⟨?_, ?_, ?_⟩
  · intro o exp hfind ho hexp
    have hloop := acquireLoop_timeout (buildNamespacedKey tenantId sessionId taskId key)
      taskId o exp ttl (now + wt) st.locks wt now hfind ho hexp (by omega)
    simp [write, hkey, hcontract, acquireWriteLock, hloop]
  · intro exp hfind hexp
    have hloop := acquireLoop_same_owner (buildNamespacedKey tenantId sessionId taskId key)
      taskId exp ttl (now + wt) st.locks wt now hfind hexp
    simp [write, hkey, hcontract, acquireWriteLock, hloop]
  · intro o exp hnd hfind ho hexp
    rcases le_or_lt exp now with hle | hlt
    · have hloop := acquireLoop_expired_now
        (buildNamespacedKey tenantId sessionId taskId key)
        taskId o exp ttl (now + wt) st.locks wt now hnd hfind hle
      have hmax : max now exp = now := by omega
      simp [write, hkey, hcontract, acquireWriteLock, hloop, hmax]
    · have hloop := acquireLoop_expires_in_window
        (buildNamespacedKey tenantId sessionId taskId key)
        taskId o exp ttl (now + wt) st.locks wt now hnd hfind ho hlt hexp (by omega)
      have hmax : max now exp = exp := by omega
      simp [write, hkey, hcontract, acquireWriteLock, hloop, hmax]

/-- Witness for C4: the three lock scenarios at concrete states (foreign
unexpiring lock times out; same-owner lock is re-acquired; foreign lock
expiring mid-window is waited out and taken over). -/
theorem claim_C4_write_lock_semantics_witness :
    write { data := [], locks := [("t:s:w:k", { ownerTaskId := "other", expiresAt := 100 })] }
        3 30 0 "t" "s" "w" "k" [("intent", PyValue.str "hello")]
        [("intent", PyValue.str "string")] "session"
      = (.error .lockTimeout,
         { data := [], locks := [("t:s:w:k", { ownerTaskId := "other", expiresAt := 100 })] })
    ∧ write { data := [], locks := [("t:s:w:k", { ownerTaskId := "w", expiresAt := 9 })] }
        3 30 2 "t" "s" "w" "k" [("intent", PyValue.str "hello")]
        [("intent", PyValue.str "string")] "session"
      = (.ok "t:s:w:k",
         { data := [("t:s:w:k",
             { tenantId := "t", sessionId := "s", taskId := "w", scope := "session",
               key := "k", value := .dict [("intent", PyValue.str "hello")],
               returnSpecShape := [("intent", PyValue.str "string")] })],
           locks := [("t:s:w:k", { ownerTaskId := "w", expiresAt := 32 })] })
    ∧ write { data := [], locks := [("t:s:w:k", { ownerTaskId := "other", expiresAt := 2 })] }
        5 30 0 "t" "s" "w" "k" [("intent", PyValue.str "hello")]
        [("intent", PyValue.str "string")] "session"
      = (.ok "t:s:w:k",
         { data := [("t:s:w:k",
             { tenantId := "t", sessionId := "s", taskId := "w", scope := "session",
               key := "k", value := .dict [("intent", PyValue.str "hello")],
               returnSpecShape := [("intent", PyValue.str "string")] })],
           locks := [("t:s:w:k", { ownerTaskId := "w", expiresAt := 32 })] }) := by
  refine ⟨?_, ?_, ?_⟩
  · exact (claim_C4_write_lock_semantics
      { data := [], locks := [("t:s:w:k", { ownerTaskId := "other", expiresAt := 100 })] }
      3 30 0 "t" "s" "w" "k" [("intent", PyValue.str "hello")]
      [("intent", PyValue.str "string")] "session" (by decide) (by decide)).1
      "other" 100 rfl (by decide) (by decide)
  · have h := (claim_C4_write_lock_semantics
      { data := [], locks := [("t:s:w:k", { ownerTaskId := "w", expiresAt := 9 })] }
      3 30 2 "t" "s" "w" "k" [("intent", PyValue.str "hello")]
      [("intent", PyValue.str "string")] "session" (by decide) (by decide)).2.1
      9 rfl (by decide)
    simpa [assocSet] using h
  · have h := (claim_C4_write_lock_semantics
      { data := [], locks := [("t:s:w:k", { ownerTaskId := "other", expiresAt := 2 })] }
      5 30 0 "t" "s" "w" "k" [("intent", PyValue.str "hello")]
      [("intent", PyValue.str "string")] "session" (by decide) (by decide)).2.2
      "other" 2 (by decide) rfl (by decide) (by decide)
    simpa [assocSet, assocRemove] using h

/-- Acquiring on an empty lock table succeeds immediately. -/
theorem acquireLoop_empty (key owner : String) (ttl deadline fuel t : Nat) :
    acquireLoop key owner ttl deadline fuel t []
      = (.ok (), [(key, ⟨owner, t + ttl⟩)]) := by
  cases fuel <;> simp [acquireLoop, evictExpiredLock, assocFind, assocSet]

/-- A namespaced key is never the empty string. -/
theorem buildNamespacedKey_ne_empty (tenantId sessionId taskId key : String) :
    buildNamespacedKey tenantId sessionId taskId key ≠ "" := by
  intro h
  have hone : (":" : String).length = 1 := rfl
  have hlen := congrArg String.length h
  simp [buildNamespacedKey, String.length_append, hone] at hlen

/-- The payload used in the C7 counterexample: no `memory_text` field. -/
def c7Payload : PyDict := [("a", PyValue.int 1)]

/-- First `save_user_memory` call of the C7 counterexample. -/
def c7FirstCall : SaveResult × MemState :=
  saveUserMemory MemState.empty "t" "s" "t1" 5 30 0 "k" c7Payload Option.none

/-- Second `save_user_memory` call of the C7 counterexample, same payload and
scope, fresh task id. -/
def c7SecondCall : SaveResult × MemState :=
  saveUserMemory c7FirstCall.2 "t" "s" "t2" 5 30 0 "k" c7Payload Option.none

/-- Claim C7 counterexample: saving the payload `{"a": 1}` twice stores two
records and the second call returns `ok`, not `duplicate_skipped`.  The dedup
search queries the canonical JSON fingerprint (`{"a":1}`, double quotes, no
spaces) but the in-memory haystack renders the stored dict with Python `str`
(`{'a': 1}`), so the substring match — and therefore the dedup — misses. -/
theorem claim_C7_counterexample :
    c7FirstCall.1.status = "ok"
    ∧ c7SecondCall.1.status = "ok"
    ∧ c7SecondCall.1.status ≠ "duplicate_skipped"
    ∧ c7SecondCall.2.data.length = 2 := by
  decide

/-- Claim C7 (amended): calling `save_user_memory` twice with the same payload
in the same scope stores exactly one record — provided the dedup query (the
payload's `memory_text`, else its canonical fingerprint) occurs
case-insensitively in the stored record's search haystack
(`"{key} {str(value)}"`), as it does for payloads carrying a plain
`memory_text` sentence.  Then the first call writes and returns `ok`, and the
second call finds the record via the top-10 scoped search, matches the
canonical fingerprint, performs no write, and returns `duplicate_skipped`
with the existing namespaced key. -/
theorem claim_C7_dedup_idempotent_when_query_matches
    (tenantId sessionId taskId1 taskId2 : String) (wt ttl now1 now2 : Nat)
    (key : String) (payload : PyDict)
    (hkey : strContains key ":" = false)
    (hcontract : matchesReturnSpecContract payload (deriveReturnSpec payload) = true)
    (hmatch : strContains (strLower (key ++ " " ++ pyStrTop (.dict payload)))
        (strStrip (strLower (dedupQueryText payload))) = true) :
    (saveUserMemory MemState.empty tenantId sessionId taskId1 wt ttl now1 key
        payload Option.none).1
      = { status := "ok",
          namespacedKey := some (buildNamespacedKey tenantId sessionId taskId1 key) }
    ∧ (saveUserMemory MemState.empty tenantId sessionId taskId1 wt ttl now1 key
        payload Option.none).2.data.length = 1
    ∧ saveUserMemory
        (saveUserMemory MemState.empty tenantId sessionId taskId1 wt ttl now1 key
          payload Option.none).2
        tenantId sessionId taskId2 wt ttl now2 key payload Option.none
      = ({ status := "duplicate_skipped",
           namespacedKey := some (buildNamespacedKey tenantId sessionId taskId1 key) },
         (saveUserMemory MemState.empty tenantId sessionId taskId1 wt ttl now1 key
           payload Option.none).2) := by
  have hnk := buildNamespacedKey_ne_empty tenantId sessionId taskId1 key
  have hfirst : saveUserMemory MemState.empty tenantId sessionId taskId1 wt ttl now1 key
      payload Option.none
      = ({ status := "ok",
           namespacedKey := some (buildNamespacedKey tenantId sessionId taskId1 key) },
         { data := [(buildNamespacedKey tenantId sessionId taskId1 key,
             { tenantId := tenantId, sessionId := sessionId, taskId := taskId1,
               scope := "user", key := key, value := .dict payload,
               returnSpecShape := deriveReturnSpec payload })],
           locks := [(buildNamespacedKey tenantId sessionId taskId1 key,
             ⟨taskId1, now1 + ttl⟩)] }) := by
    simp [saveUserMemory, saveMemoryCore, findDuplicateMemory, searchMem,
      findDupInCandidates, MemState.empty, write, hkey, hcontract,
      acquireWriteLock, acquireLoop_empty, assocSet]
  rw [hfirst]
  have hdup : findDuplicateMemory
      { data := [(buildNamespacedKey tenantId sessionId taskId1 key,
          { tenantId := tenantId, sessionId := sessionId, taskId := taskId1,
            scope := "user", key := key, value := .dict payload,
            returnSpecShape := deriveReturnSpec payload })],
        locks := [(buildNamespacedKey tenantId sessionId taskId1 key,
          ⟨taskId1, now1 + ttl⟩)] }
      tenantId sessionId payload "user"
      = some (buildNamespacedKey tenantId sessionId taskId1 key) := by
    simp [findDuplicateMemory, searchMem, findDupInCandidates, hmatch, hnk]
  refine ⟨rfl, rfl, ?_⟩
  simp [saveUserMemory, saveMemoryCore, hdup]

/-- A payload with a plain `memory_text` sentence, for which the dedup query
does occur in the search haystack. -/
def c7WitnessPayload : PyDict :=
  [("memory_text", PyValue.str "User prefers 7-day AWS cost report."),
   ("domain", PyValue.str "aws_cost")]

/-- Witness for the amended C7: with the `memory_text` payload the second
identical call is deduplicated against the record stored by the first. -/
theorem claim_C7_dedup_idempotent_witness :
    (saveUserMemory MemState.empty "t" "s" "t1" 5 30 0 "aws_pref"
        c7WitnessPayload Option.none).1
      = { status := "ok", namespacedKey := some (buildNamespacedKey "t" "s" "t1" "aws_pref") }
    ∧ (saveUserMemory MemState.empty "t" "s" "t1" 5 30 0 "aws_pref"
        c7WitnessPayload Option.none).2.data.length = 1
    ∧ saveUserMemory
        (saveUserMemory MemState.empty "t" "s" "t1" 5 30 0 "aws_pref"
          c7WitnessPayload Option.none).2
        "t" "s" "t2" 5 30 1 "aws_pref" c7WitnessPayload Option.none
      = ({ status := "duplicate_skipped",
           namespacedKey := some (buildNamespacedKey "t" "s" "t1" "aws_pref") },
         (saveUserMemory MemState.empty "t" "s" "t1" 5 30 0 "aws_pref"
           c7WitnessPayload Option.none).2) :=
  claim_C7_dedup_idempotent_when_query_matches "t" "s" "t1" "t2" 5 30 0 1 "aws_pref"
    c7WitnessPayload (by decide) (by decide) (by decide)

end AgentCore
